/-
  Verification of the realdds device-session protocol state machine
  (src/third-party/realdds/src/dds-device-impl.cpp).

  The C++ implementation is shallowly embedded: `dds_device::impl`'s mutable
  members become the fields of `SessionState`, each notification / control
  handler becomes a pure function `SessionState → ... → SessionState` (paired
  with an `Option String` carrying a thrown `DDS_THROW` message where the
  handler can throw mid-way), and `std::map` becomes a sorted association
  list (`SMap`) so that iteration order matches the source's ordered maps.
-/
import Mathlib

namespace RealddsSpec

/-! ## Sorted association maps, modelling `std::map` -/

/-- Boolean key comparison for the map's strict ordering (kept separate
    from `LT` so that concrete keys evaluate by plain `Nat` recursion). -/
class KeyOrd (κ : Type) where
  lt : κ → κ → Bool

/-- Lexicographic order on character lists by code point. -/
def charListLt : List Char → List Char → Bool
  | [], [] => false
  | [], _ :: _ => true
  | _ :: _, [] => false
  | a :: as, b :: bs =>
      if a.toNat < b.toNat then true
      else if b.toNat < a.toNat then false
      else charListLt as bs

instance : KeyOrd String := ⟨fun a b => charListLt a.data b.data⟩
instance : KeyOrd Nat := ⟨Nat.blt⟩

/-- Association list kept sorted by key; models `std::map<K,V>`. -/
abbrev SMap (κ : Type) (α : Type) : Type := List (κ × α)

namespace SMap

variable {κ : Type} {α : Type} [DecidableEq κ] [KeyOrd κ]

/-- `m.find(k)` -/
def find? : SMap κ α → κ → Option α
  | [], _ => none
  | (k', v) :: rest, k => if k = k' then some v else find? rest k

/-- `m[k] = v` (insert-or-assign), keeping the list sorted by key. -/
def setVal : SMap κ α → κ → α → SMap κ α
  | [], k, v => [(k, v)]
  | (k', v') :: rest, k, v =>
    if k = k' then (k, v) :: rest
    else if KeyOrd.lt k k' then (k, v) :: (k', v') :: rest
    else (k', v') :: setVal rest k v

/-- The map after C++ `operator[]`: ensures an entry for `k` exists,
    default-constructed if absent. -/
def ensure (m : SMap κ α) (k : κ) (d : α) : SMap κ α :=
  match find? m k with
  | some _ => m
  | none => setVal m k d

/-- `m.erase(k)` -/
def erase : SMap κ α → κ → SMap κ α
  | [], _ => []
  | (k', v) :: rest, k => if k = k' then rest else (k', v) :: erase rest k

/-- `m.size()` -/
def size (m : SMap κ α) : Nat := m.length

end SMap

/-! ## Data model

Profiles, options, embedded filters, intrinsics and GUIDs are opaque to the
session state machine (their classes live in other realdds translation
units); each is embedded as an abstract token carrying exactly the structure
`dds-device-impl.cpp` inspects. -/

/-- `dds_device::impl::state_t` -/
inductive state_t
  | OFFLINE
  | INITIALIZING
  | READY
deriving Repr, DecidableEq

/-- Modelled from the spec: a `dds_option` (name plus current cached value;
    `dds-option.cpp` is not part of the sources). `set_value` is a plain
    update of the cached value. -/
structure DdsOption where
  name : String
  value : Int
deriving Repr, DecidableEq

/-- Modelled from the spec: a `dds_embedded_filter` (name plus cached
    parameter values; `dds-embedded-filter.cpp` is not part of the sources). -/
structure EmbeddedFilter where
  name : String
  params : Int
deriving Repr, DecidableEq

/-- The json value found under `stream-options.intrinsics`, pre-parsed:
    `arr` is `some` when the json is an array (per-resolution video
    intrinsics, each element `none` when `video_intrinsics::from_json` would
    throw), `single` is the parse of the json as one video intrinsics
    record, and `accel`/`gyro` are the parses of the `accel`/`gyro` members
    (`none` when absent or unparseable, where `j.at` / `from_json` throw). -/
structure IntrJson where
  arr : Option (List (Option Nat))
  single : Option Nat
  accel : Option Nat
  gyro : Option Nat
deriving Repr, DecidableEq

/-- Modelled from the spec: a `dds_stream` object (video or motion) with the
    attributes the session cares about; the `init_*`/`set_*` members of
    `dds-stream.cpp` (not part of the sources) assign the corresponding
    attribute. -/
structure StreamObj where
  name : String
  sensor : String
  type_s : String
  is_video : Bool
  metadata_enabled : Bool := false
  profiles : List Nat := []
  default_profile_index : Nat := 0
  options : List DdsOption := []
  filters : List EmbeddedFilter := []
  vintr : List Nat := []
  accel : Option Nat := none
  gyro : Option Nat := none
deriving Repr, DecidableEq

/-- `topics::notification::stream_header` content (all mandatory fields).
    Each profile is `none` when `dds_stream_profile::from_json` would throw. -/
structure StreamHeaderMsg where
  type_s : String
  name : String
  sensor : String
  profiles : List (Option Nat)
  default_profile_index : Nat
  metadata_enabled : Bool
deriving Repr, DecidableEq

/-- `topics::notification::stream_options` content; `options`, `filters` and
    `intrinsics` are `none` when the json field is absent. Individual options
    and filters are `none` when `from_json` would throw (caught and logged). -/
structure StreamOptionsMsg where
  stream_name : String
  options : Option (List (Option DdsOption))
  filters : Option (List (Option EmbeddedFilter))
  intrinsics : Option IntrJson
deriving Repr, DecidableEq

/-- A reply document, pre-parsed: `ok` / `explanation` model the
    status/explanation that `dds_device::check_reply` inspects; `value` is
    the `value` field (`none` when absent); `control` is the embedded copy
    of the original control request (`none` when absent). -/
structure CtrlFields where
  stream_name : Option String
  option_name : Option String
deriving Repr, DecidableEq

structure Reply where
  ok : Bool
  explanation : String
  value : Option Int
  control : Option CtrlFields
deriving Repr, DecidableEq

/-- An inbound document as seen by the reply-correlation phase of
    `on_notification`: `sample` is the `["<origin guid>", sequence-number]`
    pair under `control.sample` (`none` when absent or not a 2-array). -/
structure InboundDoc where
  sample : Option (Nat × Nat)
  body : Reply
deriving Repr, DecidableEq

/-- A `dds_stream_profile`: an opaque token plus the name of the stream it
    belongs to (`none` models a profile with no owning stream). -/
structure Profile where
  stream : Option String
  tok : Nat
deriving Repr, DecidableEq

/-- An outgoing control request document as built by `open` / `close`. -/
structure ControlDoc where
  id : String
  reset : Bool
  stream_profiles : Option (SMap String Nat)
deriving Repr, DecidableEq

/-- Errors thrown by the control path (`DDS_THROW( runtime_error, ... )`):
    the timeout branch of `write_control_message` (carrying the configured
    wait duration and the sequence number), the reply-status failure raised
    by `check_reply` with the device-supplied explanation, and other runtime
    errors. -/
inductive CtrlError
  | timeout (ms : Nat) (seq : Nat)
  | protocol (explanation : String)
  | runtime (msg : String)
deriving Repr, DecidableEq

/-- The outcome of the wait in `write_control_message`: either no reply got
    correlated to our sequence number within the configured timeout, or the
    notification thread filled our slot with `r` before the deadline. -/
inductive WaitOutcome
  | timeout
  | reply (r : Reply)
deriving Repr, DecidableEq

/-- The mutable members of `dds_device::impl`. `notifications_reader`,
    `metadata_reader` model whether those topic readers exist,
    `metadata_running` whether the metadata reader was `run()`;
    `md_settings_bad` models the immutable device setting
    `metadata exists && !is_object` checked in `set_state( READY )`. -/
structure SessionState where
  state : state_t
  server_guid : Nat
  n_streams_expected : Nat
  streams : SMap String (Option StreamObj)
  stream_header_received : SMap String Bool
  stream_options_received : SMap String Bool
  device_header_received : Bool
  device_options_received : Bool
  options : List DdsOption
  extrinsics_map : List ((String × String) × Nat)
  stream_options_for_init : SMap String (List DdsOption)
  stream_filters_for_init : SMap String (List EmbeddedFilter)
  stream_intrinsics_for_init : SMap String (Option IntrJson)
  reply_timeout_ms : Nat
  control_guid : Nat
  replies : SMap Nat (Option Reply)
  open_profiles_list : List Profile
  notifications_reader : Bool
  metadata_reader : Bool
  metadata_running : Bool
  md_settings_bad : Bool
deriving Repr, DecidableEq

/-! ## The session state machine -/

/-- `dds_device::impl::reset`: clears the initialization data listed in its
    body. Note the source does not touch `_stream_options_for_init`,
    `_stream_filters_for_init` or `_stream_intrinsics_for_init` there. -/
def reset (s : SessionState) : SessionState :=
  { s with
    server_guid := 0
    n_streams_expected := 0
    streams := []
    stream_header_received := []
    stream_options_received := []
    device_header_received := false
    device_options_received := false
    options := []
    extrinsics_map := []
    metadata_reader := false
    metadata_running := false }

/-- The stream-pruning loop in `set_state( READY )`:
    `for( stream = begin; stream != end; stream++ ) if( !stream->second )
    stream = _streams.erase( stream );`.
    After `erase` returns the iterator to the next element, the loop's
    `stream++` advances past it, so the element following an erased one is
    never examined; erasing the last element yields `end()` and the loop
    terminates (the source then increments `end()`). -/
def pruneStreams : List (String × Option StreamObj) → List (String × Option StreamObj)
  | [] => []
  | (k, some v) :: rest => (k, some v) :: pruneStreams rest
  | (_, none) :: [] => []
  | (_, none) :: x :: rest => x :: pruneStreams rest

/-- `dds_device::impl::set_state` -/
def setState (s : SessionState) (new_state : state_t) : SessionState :=
  if new_state = s.state then s
  else
    let s :=
      if new_state = state_t.OFFLINE then
        -- stop & release the notifications reader (the control writer is
        -- deliberately kept, preserving the GUID), then reset
        reset { s with notifications_reader := false }
      else s
    let s :=
      if new_state = state_t.INITIALIZING then
        { s with notifications_reader := true }
      else s
    let s :=
      if new_state = state_t.READY then
        let s :=
          if s.metadata_reader then
            if s.md_settings_bad then { s with metadata_reader := false }
            else { s with metadata_running := true }
          else s
        { s with streams := pruneStreams s.streams }
      else s
    { s with state := new_state }

/-- `dds_device::impl::all_initialization_data_received` -/
def allInitDataReceived (s : SessionState) : Bool :=
  s.device_header_received && s.device_options_received &&
    SMap.size s.stream_header_received == s.n_streams_expected &&
    SMap.size s.stream_options_received == s.n_streams_expected

/-- The `if( all_initialization_data_received() ) set_state( READY )` tail
    shared by the four initialization handlers. -/
def checkReady (s : SessionState) : SessionState :=
  if allInitDataReceived s then setState s state_t.READY else s

/-- `dds_device::impl::init_stream_options_if_possible` -/
def initStreamOptionsIfPossible (s : SessionState) (stream_name : String) :
    SessionState :=
  match SMap.find? s.stream_options_for_init stream_name with
  | none => s
  | some opts =>
    match SMap.find? s.streams stream_name with
    | some (some st) =>
        { s with
          streams := SMap.setVal s.streams stream_name (some { st with options := opts })
          stream_options_for_init := SMap.erase s.stream_options_for_init stream_name }
    | _ => s

/-- `dds_device::impl::init_stream_filters_if_possible` -/
def initStreamFiltersIfPossible (s : SessionState) (stream_name : String) :
    SessionState :=
  match SMap.find? s.stream_filters_for_init stream_name with
  | none => s
  | some fs =>
    match SMap.find? s.streams stream_name with
    | some (some st) =>
        { s with
          streams := SMap.setVal s.streams stream_name (some { st with filters := fs })
          stream_filters_for_init := SMap.erase s.stream_filters_for_init stream_name }
    | _ => s

/-- Insert a `video_intrinsics` into the `std::set` (sorted, deduplicated). -/
def insertIntr (l : List Nat) (x : Nat) : List Nat :=
  match l with
  | [] => [x]
  | y :: rest =>
      if x = y then y :: rest
      else if x < y then x :: y :: rest
      else y :: insertIntr rest x

/-- All-or-nothing parse of an array of video intrinsics: a `from_json`
    throw aborts building the local set before `set_intrinsics` is called. -/
def parseAllIntr : List (Option Nat) → Option (List Nat)
  | [] => some []
  | some x :: rest => (parseAllIntr rest).map (fun l => insertIntr l x)
  | none :: _ => none

/-- The video branch of `init_stream_intrinsics_if_possible`: the whole
    parse-and-set is wrapped in try/catch, so a throw leaves the stream's
    intrinsics unchanged (the buffered entry is erased by the caller either
    way). -/
def applyVideoIntr (st : StreamObj) (j : IntrJson) : StreamObj :=
  match j.arr with
  | some elems =>
      match parseAllIntr elems with
      | some xs => { st with vintr := xs }
      | none => st
  | none =>
      match j.single with
      | some x => { st with vintr := insertIntr [] x }
      | none => st

/-- `dds_device::impl::init_stream_intrinsics_if_possible`. The motion
    branch is not wrapped in try/catch: a missing/unparseable `accel` or
    `gyro` member throws out of the function (second component `some`),
    leaving the buffered entry in place. -/
def initStreamIntrinsicsIfPossible (s : SessionState) (stream_name : String) :
    SessionState × Option String :=
  match SMap.find? s.stream_intrinsics_for_init stream_name with
  | none => (s, none)
  | some jopt =>
    match SMap.find? s.streams stream_name, jopt with
    | some (some st), some j =>
        if st.is_video then
          ({ s with
             streams := SMap.setVal s.streams stream_name (some (applyVideoIntr st j))
             stream_intrinsics_for_init :=
               SMap.erase s.stream_intrinsics_for_init stream_name }, none)
        else
          match j.accel with
          | none => (s, some "missing accel intrinsics")
          | some a =>
            let s := { s with
              streams := SMap.setVal s.streams stream_name (some { st with accel := some a }) }
            match j.gyro with
            | none => (s, some "missing gyro intrinsics")
            | some g =>
              ({ s with
                 streams := SMap.setVal s.streams stream_name
                   (some { st with accel := some a, gyro := some g })
                 stream_intrinsics_for_init :=
                   SMap.erase s.stream_intrinsics_for_init stream_name }, none)
    | _, _ => (s, none)

/-- The common tail of the two stream handlers after the
    `init_stream_intrinsics_if_possible` call: a throw propagates out of
    the handler (keeping the state mutated so far); otherwise the handler
    finishes with the readiness check. -/
def intrinsicsTail (f : SessionState → SessionState)
    (p : SessionState × Option String) : SessionState × Option String :=
  match p.2 with
  | some e => (p.1, some e)
  | none => (checkReady (f p.1), none)

/-! ## Notification handlers

Each handler returns the state after the call together with
`some message` when the C++ body throws (`DDS_THROW` / uncaught
`std::runtime_error`); state mutations made before the throw are kept, as
in the source, and `on_notification` catches and logs the exception. -/

/-- Insert-or-assign into `_extrinsics_map` (keyed by a stream-name pair;
    iteration order is never observed, so plain association-list update). -/
def setExtr (m : List ((String × String) × Nat)) (k : String × String) (v : Nat) :
    List ((String × String) × Nat) :=
  match m with
  | [] => [(k, v)]
  | (k', v') :: rest => if k = k' then (k, v) :: rest else (k', v') :: setExtr rest k v

/-- `dds_device::impl::on_device_header` -/
def onDeviceHeader (s : SessionState) (sample_guid : Nat) (n_streams : Nat)
    (extr : List (String × String × Option Nat)) : SessionState × Option String :=
  if s.state ≠ state_t.INITIALIZING then (s, none)
  else
    let s := { s with
      device_header_received := true
      server_guid := sample_guid
      n_streams_expected := n_streams }
    -- invalid extrinsics entries are caught, logged and skipped
    let s := { s with
      extrinsics_map := extr.foldl
        (fun m e =>
          match e.2.2 with
          | some x => setExtr m (e.1, e.2.1) x
          | none => m)
        s.extrinsics_map }
    (checkReady s, none)

/-- The option-pushing loop of `on_device_options`: `dds_option::from_json`
    throws are not caught there, so the loop aborts at the first invalid
    option, keeping those already pushed. -/
def pushDeviceOptions (acc : List DdsOption) :
    List (Option DdsOption) → List DdsOption × Option String
  | [] => (acc, none)
  | some o :: rest => pushDeviceOptions (acc ++ [o]) rest
  | none :: _ => (acc, some "invalid device option")

/-- `dds_device::impl::on_device_options` -/
def onDeviceOptions (s : SessionState) (options_j : Option (List (Option DdsOption))) :
    SessionState × Option String :=
  if s.state ≠ state_t.INITIALIZING then (s, none)
  else
    let s := { s with device_options_received := true }
    match options_j with
    | none => (checkReady s, none)
    | some l =>
        match pushDeviceOptions s.options l with
        | (opts, none) => (checkReady { s with options := opts }, none)
        | (opts, some e) => ({ s with options := opts }, some e)

/-- The `TYPE2STREAM` dispatch: which type strings instantiate a stream. -/
def isVideoType (t : String) : Bool :=
  t = "depth" || t = "ir" || t = "color" || t = "confidence"

def isStreamType (t : String) : Bool :=
  isVideoType t || t = "motion"

/-- Profile parsing inside `TYPE2STREAM`: `from_json` throws abort the
    handler, before the stream object is constructed. -/
def parseProfiles : List (Option Nat) → Option (List Nat)
  | [] => some []
  | some p :: rest => (parseProfiles rest).map (fun l => p :: l)
  | none :: _ => none

/-- `dds_device::impl::on_stream_header` -/
def onStreamHeader (s : SessionState) (m : StreamHeaderMsg) :
    SessionState × Option String :=
  if s.state ≠ state_t.INITIALIZING then (s, none)
  else if SMap.size s.stream_header_received ≥ s.n_streams_expected then
    (s, some "more streams than expected")
  else
    -- `_stream_header_received[stream_name]` default-inserts `false`
    let already := (SMap.find? s.stream_header_received m.name).getD false
    let s := { s with
      stream_header_received := SMap.ensure s.stream_header_received m.name false }
    if already then (s, none)  -- logged and ignored
    else
      -- `auto & stream = _streams[stream_name]` default-inserts a null ptr
      let s := { s with streams := SMap.ensure s.streams m.name none }
      if ¬ isStreamType m.type_s then (s, some "unknown stream type")
      else
        match parseProfiles m.profiles with
        | none => (s, some "invalid stream profile")
        | some profs =>
          let obj : StreamObj :=
            { name := m.name, sensor := m.sensor, type_s := m.type_s,
              is_video := isVideoType m.type_s }
          let s := { s with streams := SMap.setVal s.streams m.name (some obj) }
          -- metadata-enabled: create the metadata reader, then enable on the stream
          let s := if m.metadata_enabled then { s with metadata_reader := true } else s
          let obj := if m.metadata_enabled then { obj with metadata_enabled := true } else obj
          let s := { s with streams := SMap.setVal s.streams m.name (some obj) }
          if m.default_profile_index < profs.length then
            let obj := { obj with
              profiles := profs, default_profile_index := m.default_profile_index }
            let s := { s with streams := SMap.setVal s.streams m.name (some obj) }
            -- the stream's type_string equals the dispatched type, so the
            -- `strcmp` consistency check never fires
            let s := { s with
              stream_header_received := SMap.setVal s.stream_header_received m.name true }
            -- handle out-of-order stream-options messages
            let s := initStreamOptionsIfPossible s m.name
            let s := initStreamFiltersIfPossible s m.name
            intrinsicsTail (fun s => s) (initStreamIntrinsicsIfPossible s m.name)
          else (s, some "default profile index out of bounds")

/-- `dds_device::impl::on_stream_options` -/
def onStreamOptions (s : SessionState) (m : StreamOptionsMsg) :
    SessionState × Option String :=
  if s.state ≠ state_t.INITIALIZING then (s, none)
  else
    -- `auto & stream = _streams[stream_name]` default-inserts a null ptr
    let s := { s with streams := SMap.ensure s.streams m.stream_name none }
    let already := (SMap.find? s.stream_options_received m.stream_name).getD false
    let s := { s with
      stream_options_received := SMap.ensure s.stream_options_received m.stream_name false }
    if already then (s, none)  -- logged and ignored
    else
      let s :=
        match m.options with
        | none => s
        | some l =>
            -- invalid options are caught, logged and skipped
            let opts := l.filterMap id
            let s := { s with
              stream_options_for_init :=
                SMap.setVal s.stream_options_for_init m.stream_name opts }
            initStreamOptionsIfPossible s m.stream_name
      let s :=
        match m.filters with
        | none => s
        | some l =>
            let fs := l.filterMap id
            let s := { s with
              stream_filters_for_init :=
                SMap.setVal s.stream_filters_for_init m.stream_name fs }
            initStreamFiltersIfPossible s m.stream_name
      -- the intrinsics slot is stored unconditionally, even when the field
      -- is absent from the message
      let s := { s with
        stream_intrinsics_for_init :=
          SMap.setVal s.stream_intrinsics_for_init m.stream_name m.intrinsics }
      intrinsicsTail
        (fun s => { s with
          stream_options_received :=
            SMap.setVal s.stream_options_received m.stream_name true })
        (initStreamIntrinsicsIfPossible s m.stream_name)

/-- A notification document of one of the four initialization kinds. -/
inductive NotifMsg
  | deviceHeader (sample_guid : Nat) (n_streams : Nat)
      (extr : List (String × String × Option Nat))
  | deviceOptions (options_j : Option (List (Option DdsOption)))
  | streamHeader (m : StreamHeaderMsg)
  | streamOptions (m : StreamOptionsMsg)
deriving Repr

/-- Dispatch of `on_notification` to the typed handler. -/
def handleNotif (s : SessionState) (m : NotifMsg) : SessionState × Option String :=
  match m with
  | .deviceHeader g n e => onDeviceHeader s g n e
  | .deviceOptions o => onDeviceOptions s o
  | .streamHeader h => onStreamHeader s h
  | .streamOptions o => onStreamOptions s o

/-- `on_notification`'s handler phase: exceptions are caught per document
    and logged, keeping the state mutations made before the throw. -/
def stepNotif (s : SessionState) (m : NotifMsg) : SessionState :=
  (handleNotif s m).1

def runNotifs (s : SessionState) (ms : List NotifMsg) : SessionState :=
  ms.foldl stepNotif s

/-! ## Reply correlation and the control protocol -/

/-- Modelled from the spec: `dds_device::check_reply` (defined in
    `dds-device.cpp`, not part of the sources). The spec: "Decoding
    validates a reply's error/status field first; if it signals failure, the
    call fails with `ProtocolError` carrying the device-supplied
    explanation". The bool form reports success and fills the explanation;
    the throwing form raises on failure. -/
def checkReplyB (r : Reply) : Bool := r.ok

def checkReplyThrow (r : Reply) : Option CtrlError :=
  if r.ok then none else some (CtrlError.protocol r.explanation)

/-- `dds_device::impl::write_control_message` with a non-null `reply`
    argument. `seq` is the sequence number the transport assigns to the
    published sample; `out` is the outcome of the condition-variable wait
    (either the deadline passed with the slot still null, or the
    notification thread filled the slot with `r`). On timeout the source
    throws before reaching `_replies.erase`, so the slot stays in the map. -/
def writeControlMessage (s : SessionState) (seq : Nat) (out : WaitOutcome) :
    SessionState × Except CtrlError Reply :=
  -- `_replies[this_sequence_number]`: create the slot, initialized to null
  let existing := (SMap.find? s.replies seq).getD none
  let s := { s with replies := SMap.ensure s.replies seq none }
  match existing with
  | some r =>
      -- the slot was already non-null: the wait predicate is immediately true
      let s := { s with replies := SMap.erase s.replies seq }
      match checkReplyThrow r with
      | some e => (s, Except.error e)
      | none => (s, Except.ok r)
  | none =>
    match out with
    | .timeout => (s, Except.error (CtrlError.timeout s.reply_timeout_ms seq))
    | .reply r =>
        let s := { s with replies := SMap.erase s.replies seq }
        match checkReplyThrow r with
        | some e => (s, Except.error e)
        | none => (s, Except.ok r)

/-- `write_control_message` with a null `reply` argument: publish only, no
    slot is created and nothing waits. -/
def writeControlMessageNoReply (s : SessionState) : SessionState := s

/-- The reply-correlation phase of `dds_device::impl::on_notification`
    (the `// Check if this is a reply` block). The second component is
    `true` when an embedded error status was detected and logged (the
    `check_reply` throw is caught by the surrounding catch and logged). -/
def onNotificationReplyPhase (s : SessionState) (d : InboundDoc) :
    SessionState × Bool :=
  match d.sample with
  | none => (s, false)
  | some (origin_guid, seq) =>
    if origin_guid = s.control_guid then
      match SMap.find? s.replies seq with
      | some _ =>
          -- someone's slot: fill it and notify; no error check happens here
          ({ s with replies := SMap.setVal s.replies seq (some d.body) }, false)
      | none =>
          -- nobody's waiting for it - but we can still log any errors
          (s, !checkReplyB d.body)
    else (s, false)

/-- Find an option by name in a cached option list and set its value;
    `none` models the `option '...' not found` throw. -/
def setOptionIn (opts : List DdsOption) (nm : String) (v : Int) :
    Option (List DdsOption) :=
  match opts with
  | [] => none
  | o :: rest =>
      if o.name = nm then some ({ o with value := v } :: rest)
      else (setOptionIn rest nm v).map (fun l => o :: l)

/-- `dds_device::impl::on_set_option` (also the handler for query-option
    replies). A failed status causes an early return without touching the
    cache; only then are the control object, stream, value and option-name
    fields read. -/
def onSetOption (s : SessionState) (r : Reply) : SessionState × Option String :=
  if s.state ≠ state_t.READY then (s, none)
  else if ¬ checkReplyB r then (s, none)  -- we don't care about errors
  else
    match r.control with
    | none => (s, some "missing control object")
    | some c =>
      let stream_name := c.stream_name.getD ""
      if stream_name = "" then
        match r.value with
        | none => (s, some "missing value")
        | some v =>
          match c.option_name with
          | none => (s, some "missing option-name")
          | some nm =>
            match setOptionIn s.options nm v with
            | some opts => ({ s with options := opts }, none)
            | none => (s, some "option not found")
      else
        match SMap.find? s.streams stream_name with
        | some (some st) =>
          match r.value with
          | none => (s, some "missing value")
          | some v =>
            match c.option_name with
            | none => (s, some "missing option-name")
            | some nm =>
              match setOptionIn st.options nm v with
              | some opts =>
                  let st' := { st with options := opts }
                  ({ s with streams := SMap.setVal s.streams stream_name (some st') },
                   none)
              | none => (s, some "option not found")
        | _ => (s, some "stream not found")

/-- `dds_device::impl::set_option_value`: builds the `set-option` request
    and sends it through `write_control_message`; the reply handler applies
    the returned value separately. -/
def setOptionValue (s : SessionState) (seq : Nat) (out : WaitOutcome) :
    SessionState × Except CtrlError Unit :=
  match writeControlMessage s seq out with
  | (s, Except.error e) => (s, Except.error e)
  | (s, Except.ok _) => (s, Except.ok ())

/-- `dds_device::impl::query_option_value`: after a successful
    `write_control_message` the `value` field of the reply is read
    (`reply.at( value )` throws when absent). -/
def queryOptionValue (s : SessionState) (seq : Nat) (out : WaitOutcome) :
    SessionState × Except CtrlError Int :=
  match writeControlMessage s seq out with
  | (s, Except.error e) => (s, Except.error e)
  | (s, Except.ok r) =>
      match r.value with
      | some v => (s, Except.ok v)
      | none => (s, Except.error (CtrlError.runtime "reply has no value field"))

/-! ## open / close streams -/

/-- Modelled from the spec: `topics::control::open_streams::id` (the topic
    name constants live in `dds-topic-names.h`, not part of the sources);
    the spec gives the request as `(id: "open-streams", reset: bool,
    stream-profiles?: ...)`. -/
def open_streams_id : String := "open-streams"

/-- The id the spec assigns to the close-streams verb
    (`(id: "close-streams", ...)`). -/
def close_streams_id : String := "close-streams"

/-- `dds_device::impl::add_profiles_to_json`: a json object keyed by stream
    name; throws when a profile has no stream or when a stream appears
    twice. -/
def addProfilesToJson (acc : SMap String Nat) :
    List Profile → Except CtrlError (SMap String Nat)
  | [] => Except.ok acc
  | p :: rest =>
    match p.stream with
    | none => Except.error (CtrlError.runtime "profile is not part of any stream")
    | some nm =>
        if (SMap.find? acc nm).isSome then
          Except.error (CtrlError.runtime "more than one profile found for stream")
        else addProfilesToJson (SMap.setVal acc nm p.tok) rest

/-- Erase the first occurrence of `p` from the open-profiles list
    (`find` + `erase` in `close`). -/
def eraseFirstProfile : List Profile → Profile → List Profile
  | [], _ => []
  | q :: rest, p => if q = p then rest else q :: eraseFirstProfile rest p

/-- `dds_device::impl::open`. Returns the new state, the published control
    document (`none` when the throw happens before publishing) and the
    call's outcome. -/
def openStreams (s : SessionState) (profiles : List Profile) (seq : Nat)
    (out : WaitOutcome) :
    SessionState × Option ControlDoc × Except CtrlError Unit :=
  if profiles.isEmpty then
    (s, none, Except.error (CtrlError.runtime "must provide at least one profile"))
  else
    match addProfilesToJson [] profiles with
    | Except.error e => (s, none, Except.error e)
    | Except.ok profiles_to_open =>
      let doc : ControlDoc :=
        { id := open_streams_id
          reset := false
          stream_profiles :=
            if profiles_to_open.isEmpty then none else some profiles_to_open }
      match writeControlMessage s seq out with
      | (s, Except.error e) => (s, some doc, Except.error e)
      | (s, Except.ok _) =>
          ({ s with open_profiles_list := s.open_profiles_list ++ profiles },
           some doc, Except.ok ())

/-- `dds_device::impl::close`. The given profiles are removed from the open
    list first; the request then carries the remaining (kept-open) profiles
    with `reset = true` under the open-streams id. -/
def closeStreams (s : SessionState) (profiles : List Profile) (seq : Nat)
    (out : WaitOutcome) :
    SessionState × Option ControlDoc × Except CtrlError Unit :=
  let s := { s with
    open_profiles_list := profiles.foldl eraseFirstProfile s.open_profiles_list }
  match addProfilesToJson [] s.open_profiles_list with
  | Except.error e => (s, none, Except.error e)
  | Except.ok keep_open_profiles =>
    let doc : ControlDoc :=
      { id := open_streams_id
        reset := true
        stream_profiles :=
          if keep_open_profiles.isEmpty then none else some keep_open_profiles }
    match writeControlMessage s seq out with
    | (s, Except.error e) => (s, some doc, Except.error e)
    | (s, Except.ok _) => (s, some doc, Except.ok ())

/-! ## Construction and derived observations -/

/-- The `impl` constructor (control writer and notifications reader created,
    reply timeout from settings, default 2500ms; the session starts
    OFFLINE until discovery triggers `set_state( INITIALIZING )`). -/
def initialSession (g : Nat) : SessionState :=
  { state := state_t.OFFLINE
    server_guid := 0
    n_streams_expected := 0
    streams := []
    stream_header_received := []
    stream_options_received := []
    device_header_received := false
    device_options_received := false
    options := []
    extrinsics_map := []
    stream_options_for_init := []
    stream_filters_for_init := []
    stream_intrinsics_for_init := []
    reply_timeout_ms := 2500
    control_guid := g
    replies := []
    open_profiles_list := []
    notifications_reader := true
    metadata_reader := false
    metadata_running := false
    md_settings_bad := false }

/-- The number of streams for which both the header and the options marker
    are set — streams completed with header and options matched per
    stream. -/
def completedStreams (s : SessionState) : Nat :=
  (s.stream_header_received.filter
    (fun kv => kv.2 && (SMap.find? s.stream_options_received kv.1).getD false)).length

/-! ## Concrete scenario data -/

/-- A freshly discovered session: constructed, then moved to INITIALIZING. -/
def discoveredSession : SessionState :=
  setState (initialSession 3) state_t.INITIALIZING

/-- A minimal well-formed stream header for stream `nm`. -/
def mkHeader (nm : String) : StreamHeaderMsg :=
  { type_s := "depth", name := nm, sensor := "Stereo Module", profiles := [some 0],
    default_profile_index := 0, metadata_enabled := false }

/-- A minimal stream-options message for stream `nm`. -/
def mkOptions (nm : String) : StreamOptionsMsg :=
  { stream_name := nm, options := none, filters := none, intrinsics := none }

/-- A successful reply with no further content. -/
def okReply : Reply := { ok := true, explanation := "", value := none, control := none }

/-- A reply carrying an explicit failure status. -/
def errReply : Reply :=
  { ok := false, explanation := "device rejected", value := none, control := none }

/-- A session mid-initialization (2 streams expected) where stream "Depth"
    already delivered both its header and its options. -/
def dupSession : SessionState :=
  runNotifs discoveredSession
    [ NotifMsg.deviceHeader 7 2 [], NotifMsg.deviceOptions none,
      NotifMsg.streamHeader (mkHeader "Depth"),
      NotifMsg.streamOptions (mkOptions "Depth") ]

/-- A session holding a buffered stream-options fragment for a stream whose
    header has not arrived yet (delivered out of order). -/
def pendingFragmentSession : SessionState :=
  { discoveredSession with
    stream_options_for_init := [("Depth", [{ name := "Exposure", value := 8 }])]
    stream_intrinsics_for_init :=
      [("Depth", some { arr := none, single := some 4, accel := none, gyro := none })] }

/-- The session right after a wait for reply #5 timed out: the stale slot
    is still registered. -/
def timedOutSession : SessionState :=
  (writeControlMessage (initialSession 3) 5 WaitOutcome.timeout).1

/-- The late reply to request #5: it matches this session's own identity
    (GUID 3) and carries an explicit error status. -/
def lateErrorDoc : InboundDoc := { sample := some (3, 5), body := errReply }

/-- A session with two profiles currently open. -/
def profDepth : Profile := { stream := some "Depth", tok := 1 }
def profColor : Profile := { stream := some "Color", tok := 2 }
def openProfilesSession : SessionState :=
  { discoveredSession with open_profiles_list := [profDepth, profColor] }

/-- Device header announcing two streams, then device options, then stream
    headers for "A" and "B" but stream options for "C" and "D": the counts
    (2 headers, 2 options) satisfy `all_initialization_data_received` even
    though no single stream is complete. -/
def mismatchedInitTrace : List NotifMsg :=
  [ NotifMsg.deviceHeader 7 2 [], NotifMsg.deviceOptions none,
    NotifMsg.streamHeader (mkHeader "A"), NotifMsg.streamHeader (mkHeader "B"),
    NotifMsg.streamOptions (mkOptions "C"), NotifMsg.streamOptions (mkOptions "D") ]

def mismatchedInitFinal : SessionState :=
  runNotifs discoveredSession mismatchedInitTrace

/-- Device header announcing two streams, then device options, then header
    and options for "A", header for "B", and stray options for "C". -/
def crossedInitTrace : List NotifMsg :=
  [ NotifMsg.deviceHeader 7 2 [], NotifMsg.deviceOptions none,
    NotifMsg.streamHeader (mkHeader "A"), NotifMsg.streamOptions (mkOptions "A"),
    NotifMsg.streamHeader (mkHeader "B"), NotifMsg.streamOptions (mkOptions "C") ]

def crossedInitFinal : SessionState :=
  runNotifs discoveredSession crossedInitTrace

/-- A well-formed stream header for a "Color" video stream with two
    profiles, metadata enabled. -/
def witnessHeader : StreamHeaderMsg :=
  { type_s := "depth", name := "Color", sensor := "RGB Camera",
    profiles := [some 5, some 6], default_profile_index := 1,
    metadata_enabled := true }

/-- A stream-options message for "Color" carrying one valid and one invalid
    option, an embedded filter, and single scalable video intrinsics. -/
def witnessOptions : StreamOptionsMsg :=
  { stream_name := "Color"
    options := some [some { name := "Exposure", value := 50 }, none]
    filters := some [some { name := "Decimation", params := 2 }]
    intrinsics := some { arr := none, single := some 9, accel := none, gyro := none } }

/-! ## Claims -/

namespace SMap

variable {κ : Type} {α : Type} [DecidableEq κ] [KeyOrd κ]

theorem find?_setVal_self (m : SMap κ α) (k : κ) (v : α) :
    find? (setVal m k v) k = some v := by
  induction m with
  | nil => simp [setVal, find?]
  | cons hd tl ih =>
      obtain ⟨k', v'⟩ := hd
      by_cases hk : k = k'
      · simp [setVal, hk, find?]
      · by_cases hlt : KeyOrd.lt k k' = true
        · simp [setVal, hk, hlt, find?]
        · simp [setVal, hk, hlt, find?, ih]

theorem find?_setVal_ne (m : SMap κ α) {k k' : κ} (v : α) (h : k ≠ k') :
    find? (setVal m k' v) k = find? m k := by
  induction m with
  | nil => simp [setVal, find?, h]
  | cons hd tl ih =>
      obtain ⟨k'', v''⟩ := hd
      by_cases hk : k' = k''
      · subst hk
        simp [setVal, find?, h]
      · by_cases hlt : KeyOrd.lt k' k'' = true
        · simp [setVal, hk, hlt, find?, h]
        · by_cases hkk : k = k''
          · simp [setVal, hk, hlt, find?, hkk]
          · simp [setVal, hk, hlt, find?, hkk, ih]

theorem ensure_of_mem {m : SMap κ α} {k : κ} {v : α} (h : find? m k = some v)
    (d : α) : ensure m k d = m := by
  simp [ensure, h]

theorem ensure_of_not_mem {m : SMap κ α} {k : κ} (h : find? m k = none)
    (d : α) : ensure m k d = setVal m k d := by
  simp [ensure, h]

theorem setVal_setVal (m : SMap κ α) (k : κ) (v w : α) :
    setVal (setVal m k v) k w = setVal m k w := by
  induction m with
  | nil => simp [setVal]
  | cons hd tl ih =>
      obtain ⟨k', v'⟩ := hd
      by_cases hk : k = k'
      · simp [setVal, hk]
      · by_cases hlt : KeyOrd.lt k k' = true
        · simp [setVal, hk, hlt]
        · simp [setVal, hk, hlt, ih]

theorem erase_setVal_of_not_mem {m : SMap κ α} {k : κ} (h : find? m k = none)
    (v : α) : erase (setVal m k v) k = m := by
  induction m with
  | nil => simp [setVal, erase]
  | cons hd tl ih =>
      obtain ⟨k', v'⟩ := hd
      by_cases hk : k = k'
      · simp [find?, hk] at h
      · by_cases hlt : KeyOrd.lt k k' = true
        · simp [setVal, hk, hlt, erase]
        · simp [find?, hk] at h
          simp [setVal, hk, hlt, erase, ih h]

theorem size_setVal_of_not_mem {m : SMap κ α} {k : κ} (h : find? m k = none)
    (v : α) : size (setVal m k v) = size m + 1 := by
  induction m with
  | nil => simp [setVal, size]
  | cons hd tl ih =>
      obtain ⟨k', v'⟩ := hd
      by_cases hk : k = k'
      · simp [find?, hk] at h
      · by_cases hlt : KeyOrd.lt k k' = true
        · simp [setVal, hk, hlt, size]
        · simp [find?, hk] at h
          simp [setVal, hk, hlt, size] at ih ⊢
          exact ih h

end SMap

/-- C10: while INITIALIZING with the expected stream count still zero (no
    device header received in this session generation), a stream-header
    notification raises the "more streams than expected" protocol error and
    is discarded with the state unchanged — it is neither buffered nor
    applied. -/
theorem stream_header_before_device_header_rejected (s : SessionState)
    (m : StreamHeaderMsg) (h1 : s.state = state_t.INITIALIZING)
    (h2 : s.n_streams_expected = 0) :
    onStreamHeader s m = (s, some "more streams than expected") := by
  simp [onStreamHeader, h1, h2]

theorem stream_header_before_device_header_rejected_witness :
    onStreamHeader discoveredSession (mkHeader "Depth") =
      (discoveredSession, some "more streams than expected") :=
  stream_header_before_device_header_rejected discoveredSession (mkHeader "Depth")
    (by decide) (by decide)

/-- C6: while a stream's header (resp. options) has already been received,
    a duplicate stream-header (resp. stream-options) notification for that
    stream leaves the session state unchanged: it is logged and ignored,
    and whatever the first message established wins. -/
theorem duplicate_stream_messages_ignored (s : SessionState)
    (mh : StreamHeaderMsg) (mo : StreamOptionsMsg)
    (h1 : SMap.find? s.stream_header_received mh.name = some true)
    (h2 : SMap.find? s.stream_options_received mo.stream_name = some true)
    (h3 : (SMap.find? s.streams mo.stream_name).isSome = true) :
    (onStreamHeader s mh).1 = s ∧ (onStreamOptions s mo).1 = s := by
  rcases s with ⟨st1, sg, n, strs, shr, sor, dh, dop, opts, exm, ofi, ffi, ifi,
    rt, cg, rp, opl, nr, mr, mru, mdb⟩
  simp only at h1 h2 h3
  constructor
  · by_cases hst : st1 = state_t.INITIALIZING
    · subst hst
      by_cases hsz : SMap.size shr ≥ n
      · simp [onStreamHeader, hsz]
      · simp [onStreamHeader, hsz, h1, SMap.ensure_of_mem h1]
    · simp [onStreamHeader, hst]
  · by_cases hst : st1 = state_t.INITIALIZING
    · subst hst
      obtain ⟨st, hstr⟩ := Option.isSome_iff_exists.mp h3
      simp [onStreamOptions, h2, SMap.ensure_of_mem hstr, SMap.ensure_of_mem h2]
    · simp [onStreamOptions, hst]

theorem duplicate_stream_messages_ignored_witness :
    (onStreamHeader dupSession (mkHeader "Depth")).1 = dupSession ∧
    (onStreamOptions dupSession (mkOptions "Depth")).1 = dupSession :=
  duplicate_stream_messages_ignored dupSession (mkHeader "Depth") (mkOptions "Depth")
    (by decide) (by decide) (by decide)

/-- C3 counterexample: the transition to OFFLINE does NOT clear the pending
    stream-initialization fragment buffers — `reset()` never touches
    `_stream_options_for_init` / `_stream_filters_for_init` /
    `_stream_intrinsics_for_init`, so buffered fragments survive the
    discovery loss. -/
theorem offline_keeps_pending_fragment_buffers :
    (setState pendingFragmentSession state_t.OFFLINE).state = state_t.OFFLINE ∧
    (setState pendingFragmentSession state_t.OFFLINE).stream_options_for_init ≠ [] ∧
    (setState pendingFragmentSession state_t.OFFLINE).stream_intrinsics_for_init ≠ [] := by
  decide

/-- C3 (amended): the transition to OFFLINE clears the streams map, the
    header/options received markers, the device options, the extrinsics
    map, the server identity and the expected stream count, and stops the
    notification (and metadata) readers, while leaving everything else —
    the reply-timeout configuration, the control writer identity, and also
    the three pending stream-initialization fragment buffers — unchanged. -/
theorem offline_clears_state_except_fragment_buffers (s : SessionState)
    (h : s.state ≠ state_t.OFFLINE) :
    setState s state_t.OFFLINE =
      { s with
        state := state_t.OFFLINE
        server_guid := 0
        n_streams_expected := 0
        streams := []
        stream_header_received := []
        stream_options_received := []
        device_header_received := false
        device_options_received := false
        options := []
        extrinsics_map := []
        notifications_reader := false
        metadata_reader := false
        metadata_running := false } := by
  simp [setState, Ne.symm h, reset]

theorem offline_clears_state_except_fragment_buffers_witness :
    setState pendingFragmentSession state_t.OFFLINE =
      { pendingFragmentSession with
        state := state_t.OFFLINE
        server_guid := 0
        n_streams_expected := 0
        streams := []
        stream_header_received := []
        stream_options_received := []
        device_header_received := false
        device_options_received := false
        options := []
        extrinsics_map := []
        notifications_reader := false
        metadata_reader := false
        metadata_running := false } :=
  offline_clears_state_except_fragment_buffers pendingFragmentSession (by decide)

/-- C4 counterexample: when the wait for reply #5 times out, the call fails
    with the timeout error carrying the configured duration, but the
    pending reply slot keyed by sequence number 5 is NOT removed from the
    map — the `DDS_THROW` in `write_control_message` happens before
    `_replies.erase` is reached, so the null slot stays behind. -/
theorem timeout_leaves_reply_slot :
    (writeControlMessage (initialSession 3) 5 WaitOutcome.timeout).2 =
      Except.error (CtrlError.timeout 2500 5) ∧
    SMap.find? (writeControlMessage (initialSession 3) 5 WaitOutcome.timeout).1.replies 5 =
      some none :=
  ⟨rfl, rfl⟩

/-- C4 (amended): for a control request whose matching reply never arrives,
    the caller's wait fails with a timeout error after the configured
    reply-timeout duration, but upon expiry the pending reply slot is NOT
    removed: it stays in the map (holding null). The slot is removed only
    when a reply is consumed by the waiting caller. -/
theorem reply_slot_removed_only_on_consumption (s : SessionState) (seq : Nat)
    (r : Reply) (h : SMap.find? s.replies seq = none) :
    writeControlMessage s seq WaitOutcome.timeout =
      ({ s with replies := SMap.setVal s.replies seq none },
        Except.error (CtrlError.timeout s.reply_timeout_ms seq)) ∧
    (writeControlMessage s seq (WaitOutcome.reply r)).1.replies = s.replies := by
  constructor
  · simp [writeControlMessage, h, SMap.ensure_of_not_mem h]
  · by_cases hok : r.ok
    · simp [writeControlMessage, h, SMap.ensure_of_not_mem h, checkReplyThrow, hok,
        SMap.erase_setVal_of_not_mem h]
    · simp [writeControlMessage, h, SMap.ensure_of_not_mem h, checkReplyThrow, hok,
        SMap.erase_setVal_of_not_mem h]

theorem reply_slot_removed_only_on_consumption_witness :
    writeControlMessage (initialSession 3) 7 WaitOutcome.timeout =
      ({ initialSession 3 with replies := SMap.setVal (initialSession 3).replies 7 none },
        Except.error (CtrlError.timeout (initialSession 3).reply_timeout_ms 7)) ∧
    (writeControlMessage (initialSession 3) 7 (WaitOutcome.reply okReply)).1.replies =
      (initialSession 3).replies :=
  reply_slot_removed_only_on_consumption (initialSession 3) 7 okReply (by decide)

/-- C5 counterexample: a reply whose waiter already timed out is NOT
    checked for an embedded error status — the stale slot left behind by
    the timeout still matches the sequence number, so the dispatcher files
    the document into the dead slot and the `check_reply`-and-log branch is
    never reached: the embedded error is silently absorbed. -/
theorem late_reply_error_not_logged :
    checkReplyB lateErrorDoc.body = false ∧
    lateErrorDoc.sample = some (timedOutSession.control_guid, 5) ∧
    (onNotificationReplyPhase timedOutSession lateErrorDoc).2 = false := by
  decide

/-- C5 (amended): an inbound reply matching this session's own identity for
    which no pending slot exists at all (an informational reply, or a reply
    to a request sent without waiting) is checked for an embedded error
    status, any error is logged, and the state is untouched. (When the
    waiter merely timed out, its stale slot still exists and swallows the
    reply unchecked — see the counterexample.) -/
theorem unclaimed_reply_error_logged (s : SessionState) (d : InboundDoc)
    (seq : Nat) (h1 : d.sample = some (s.control_guid, seq))
    (h2 : SMap.find? s.replies seq = none) :
    (onNotificationReplyPhase s d).2 = !checkReplyB d.body ∧
    (onNotificationReplyPhase s d).1 = s := by
  simp [onNotificationReplyPhase, h1, h2]

theorem unclaimed_reply_error_logged_witness :
    (onNotificationReplyPhase (initialSession 3) lateErrorDoc).2 =
      !checkReplyB lateErrorDoc.body ∧
    (onNotificationReplyPhase (initialSession 3) lateErrorDoc).1 = initialSession 3 :=
  unclaimed_reply_error_logged (initialSession 3) lateErrorDoc 5 (by decide) (by decide)

/-- C7: a set-option / query-option reply carrying an explicit failure
    status makes the call fail with the protocol error carrying the
    device-supplied explanation; the status is validated before any
    verb-specific field is read (the conclusion holds even when the reply
    has no `value` field at all), and the cached option values — device and
    stream level alike — are left completely unchanged (`on_set_option`
    returns before touching the cache). -/
theorem failed_reply_raises_protocol_error_and_preserves_cache
    (s : SessionState) (r : Reply) (seq : Nat)
    (hok : r.ok = false) (hseq : SMap.find? s.replies seq = none) :
    onSetOption s r = (s, none) ∧
    setOptionValue s seq (WaitOutcome.reply r) =
      (s, Except.error (CtrlError.protocol r.explanation)) ∧
    queryOptionValue s seq (WaitOutcome.reply r) =
      (s, Except.error (CtrlError.protocol r.explanation)) := by
  refine ⟨?_, ?_, ?_⟩
  · by_cases hst : s.state = state_t.READY
    · simp [onSetOption, hst, checkReplyB, hok]
    · simp [onSetOption, hst]
  · simp [setOptionValue, writeControlMessage, hseq, SMap.ensure_of_not_mem hseq,
      checkReplyThrow, hok, SMap.erase_setVal_of_not_mem hseq]
  · simp [queryOptionValue, writeControlMessage, hseq, SMap.ensure_of_not_mem hseq,
      checkReplyThrow, hok, SMap.erase_setVal_of_not_mem hseq]

theorem failed_reply_raises_protocol_error_and_preserves_cache_witness :
    onSetOption dupSession errReply = (dupSession, none) ∧
    setOptionValue dupSession 9 (WaitOutcome.reply errReply) =
      (dupSession, Except.error (CtrlError.protocol errReply.explanation)) ∧
    queryOptionValue dupSession 9 (WaitOutcome.reply errReply) =
      (dupSession, Except.error (CtrlError.protocol errReply.explanation)) :=
  failed_reply_raises_protocol_error_and_preserves_cache dupSession errReply 9
    (by decide) (by decide)

/-- `write_control_message` only touches the pending-replies map. -/
theorem writeControlMessage_open_profiles (s : SessionState) (seq : Nat)
    (out : WaitOutcome) :
    (writeControlMessage s seq out).1.open_profiles_list = s.open_profiles_list := by
  unfold writeControlMessage
  rcases hE : (SMap.find? s.replies seq).getD none with _ | r
  · rcases out with _ | r
    · simp
    · rcases hc : checkReplyThrow r with _ | e <;> simp [hc]
  · rcases hc : checkReplyThrow r with _ | e <;> simp [hc]

/-- C8 counterexample: closing the Depth profile publishes a control
    request whose verb identifier is `open-streams` (with `reset = true`
    and the remaining profiles listed), not a `close-streams` identifier:
    no close-streams verb exists in the control protocol. -/
theorem close_publishes_open_streams_id :
    (closeStreams openProfilesSession [profDepth] 9 (WaitOutcome.reply okReply)).2.1 =
      some { id := "open-streams", reset := true, stream_profiles := some [("Color", 2)] } ∧
    ("open-streams" : String) ≠ "close-streams" := by
  exact ⟨rfl, by decide⟩

/-- C8 (amended): the close-streams operation removes the given profiles
    from the cached open-profiles list (keeping the rest), and publishes a
    control request carrying the OPEN-streams verb identifier with
    `reset = true` and the kept-open profiles — the given streams are
    closed by being omitted from the reset list, not by a dedicated
    close-streams verb. -/
theorem close_removes_profiles_and_publishes_reset_request
    (s : SessionState) (ps : List Profile) (seq : Nat) (out : WaitOutcome)
    (kp : SMap String Nat)
    (h : addProfilesToJson [] (ps.foldl eraseFirstProfile s.open_profiles_list) =
      Except.ok kp) :
    (closeStreams s ps seq out).1.open_profiles_list =
      ps.foldl eraseFirstProfile s.open_profiles_list ∧
    (closeStreams s ps seq out).2.1 =
      some { id := open_streams_id, reset := true,
             stream_profiles := if kp.isEmpty then none else some kp } := by
  unfold closeStreams
  simp only [h]
  rcases hw : writeControlMessage
      { s with open_profiles_list := ps.foldl eraseFirstProfile s.open_profiles_list }
      seq out with ⟨s', res⟩
  have hpres := writeControlMessage_open_profiles
    { s with open_profiles_list := ps.foldl eraseFirstProfile s.open_profiles_list }
    seq out
  rw [hw] at hpres
  dsimp only at hpres
  rcases res with e | r <;> simp [hpres]

theorem close_removes_profiles_and_publishes_reset_request_witness :
    (closeStreams openProfilesSession [profDepth] 9 (WaitOutcome.reply okReply)).1.open_profiles_list =
      ([profDepth].foldl eraseFirstProfile openProfilesSession.open_profiles_list) ∧
    (closeStreams openProfilesSession [profDepth] 9 (WaitOutcome.reply okReply)).2.1 =
      some { id := open_streams_id, reset := true,
             stream_profiles :=
               if ([("Color", 2)] : SMap String Nat).isEmpty then none
               else some [("Color", 2)] } :=
  close_removes_profiles_and_publishes_reset_request openProfilesSession [profDepth] 9
    (WaitOutcome.reply okReply) [("Color", 2)] rfl

/-- C9: the READY-transition prune is expected to remove every never-
    constructed (null) stream entry, but the loop increments the iterator
    returned by `erase`, skipping the element that follows an erased one:
    after the trace above reaches READY, the partial entry "D" (stream
    options received, header never arrived) survives in the streams map,
    still null — contradicting the source's own comment "Remove stream if
    object not created". -/
theorem ready_prune_skips_entry_after_erased_one :
    mismatchedInitFinal.state = state_t.READY ∧
    SMap.find? mismatchedInitFinal.streams "D" = some none ∧
    mismatchedInitFinal.streams.map (fun kv => (kv.1, kv.2.isSome)) =
      [("A", true), ("B", true), ("D", false)] := by
  decide

/-- C1 counterexample: READY is reached although only one stream ("A") has
    both its header and its options — stream "B"'s options never arrived
    (stray options for "C" made the count match instead). The readiness
    condition compares the sizes of the header-received and
    options-received maps with the expected count; it does not match
    headers and options per stream, so READY is reached with fewer
    completed streams (1) than the expected stream count (2). -/
theorem ready_reached_with_mismatched_stream_sets :
    crossedInitFinal.state = state_t.READY ∧
    crossedInitFinal.n_streams_expected = 2 ∧
    completedStreams crossedInitFinal = 1 ∧
    SMap.find? crossedInitFinal.stream_options_received "B" = none ∧
    SMap.find? crossedInitFinal.stream_header_received "C" = none := by
  decide

theorem initStreamOptionsIfPossible_state (s : SessionState) (nm : String) :
    (initStreamOptionsIfPossible s nm).state = s.state := by
  unfold initStreamOptionsIfPossible
  split
  · rfl
  · split <;> rfl

theorem initStreamFiltersIfPossible_state (s : SessionState) (nm : String) :
    (initStreamFiltersIfPossible s nm).state = s.state := by
  unfold initStreamFiltersIfPossible
  split
  · rfl
  · split <;> rfl

theorem initStreamIntrinsicsIfPossible_state (s : SessionState) (nm : String) :
    (initStreamIntrinsicsIfPossible s nm).1.state = s.state := by
  unfold initStreamIntrinsicsIfPossible
  split
  · rfl
  · split
    · split
      · rfl
      · split
        · rfl
        · split <;> rfl
    · rfl

theorem setState_ready_state (s : SessionState) (h : s.state = state_t.INITIALIZING) :
    (setState s state_t.READY).state = state_t.READY := by
  simp [setState, h]

theorem allInitDataReceived_setState_ready (s : SessionState)
    (h : s.state = state_t.INITIALIZING) :
    allInitDataReceived (setState s state_t.READY) = allInitDataReceived s := by
  simp only [setState, h]
  split_ifs <;> simp [allInitDataReceived]

/-- The `if all_initialization_data_received set_state READY` tail makes
    the post-state READY precisely when the readiness condition holds of
    the post-state. -/
theorem checkReady_ready_iff (s : SessionState) (h : s.state = state_t.INITIALIZING) :
    ((checkReady s).state = state_t.READY ↔
      allInitDataReceived (checkReady s) = true) := by
  by_cases hc : allInitDataReceived s = true
  · simp only [checkReady, hc, if_true]
    constructor
    · intro _
      rw [allInitDataReceived_setState_ready s h]
      exact hc
    · intro _
      exact setState_ready_state s h
  · have hc' : allInitDataReceived s = false := by
      cases hb : allInitDataReceived s
      · rfl
      · exact absurd hb hc
    simp [checkReady, hc', h]

theorem intrinsicsTail_ready_iff (f : SessionState → SessionState)
    (p : SessionState × Option String)
    (hs : (f p.1).state = state_t.INITIALIZING)
    (h3 : (intrinsicsTail f p).2 = none) :
    ((intrinsicsTail f p).1.state = state_t.READY ↔
      allInitDataReceived (intrinsicsTail f p).1 = true) := by
  rcases p with ⟨s0, err⟩
  cases err with
  | none => simpa [intrinsicsTail] using checkReady_ready_iff (f s0) (by simpa using hs)
  | some e => simp [intrinsicsTail] at h3

set_option maxHeartbeats 2000000 in
/-- C1 (amended): from an INITIALIZING state whose readiness condition does
    not yet hold, an initialization notification whose handler completes
    without a protocol error makes the session READY exactly when
    `all_initialization_data_received` holds afterwards: device-header and
    device-options applied, and the SIZES of the stream-header-received and
    stream-options-received maps each equal the expected stream count. The
    headers and options are matched only by count, never per stream, so
    READY can be reached with fewer completed (header-plus-options) streams
    than the expected count — see the counterexample. -/
theorem ready_iff_init_counts (s : SessionState) (m : NotifMsg)
    (h1 : s.state = state_t.INITIALIZING)
    (h2 : allInitDataReceived s = false)
    (h3 : (handleNotif s m).2 = none) :
    ((handleNotif s m).1.state = state_t.READY ↔
      allInitDataReceived (handleNotif s m).1 = true) := by
  cases m with
  | deviceHeader g n e =>
      simp only [handleNotif, onDeviceHeader, h1, ne_eq, not_true_eq_false,
        if_false, ite_false]
      exact checkReady_ready_iff _ (by simp [h1])
  | deviceOptions oj =>
      cases oj with
      | none =>
          simp only [handleNotif, onDeviceOptions, h1, ne_eq, not_true_eq_false,
            if_false, ite_false]
          exact checkReady_ready_iff _ (by simp [h1])
      | some l =>
          rcases hp : pushDeviceOptions s.options l with ⟨opts, err⟩
          simp only [handleNotif, onDeviceOptions, h1, ne_eq, not_true_eq_false,
            if_false, ite_false, hp] at h3 ⊢
          cases err with
          | none => exact checkReady_ready_iff _ (by simp [h1])
          | some e => simp at h3
  | streamHeader mh =>
      simp only [handleNotif, onStreamHeader, h1, ne_eq, not_true_eq_false,
        if_false, ite_false] at h3 ⊢
      by_cases hsz : SMap.size s.stream_header_received ≥ s.n_streams_expected
      · simp [hsz] at h3
      · simp only [hsz, if_false, ite_false] at h3 ⊢
        by_cases hdup : (SMap.find? s.stream_header_received mh.name).getD false = true
        · have hmem : SMap.find? s.stream_header_received mh.name = some true := by
            cases hf : SMap.find? s.stream_header_received mh.name with
            | none => rw [hf] at hdup; simp at hdup
            | some b => rw [hf] at hdup; simp at hdup; rw [hdup]
          rw [if_pos hdup, SMap.ensure_of_mem hmem]
          constructor
          · intro hcontra
            simp at hcontra
          · intro hcontra
            have h4 : allInitDataReceived s = true := hcontra
            rw [h2] at h4
            simp at h4
        · rw [if_neg hdup] at h3 ⊢
          by_cases hty : isStreamType mh.type_s
          · simp only [hty, not_true_eq_false, if_false, ite_false] at h3 ⊢
            cases hpp : parseProfiles mh.profiles with
            | none => simp only [hpp] at h3; simp at h3
            | some profs =>
                simp only [hpp] at h3 ⊢
                by_cases hdpi : mh.default_profile_index < profs.length
                · simp only [hdpi, if_true, ite_true] at h3 ⊢
                  refine intrinsicsTail_ready_iff _ _ ?_ h3
                  simp only [initStreamIntrinsicsIfPossible_state,
                    initStreamFiltersIfPossible_state,
                    initStreamOptionsIfPossible_state]
                  cases hm : mh.metadata_enabled <;> simp [hm]
                · simp [hdpi] at h3
          · simp [hty] at h3
  | streamOptions mo =>
      simp only [handleNotif, onStreamOptions, h1, ne_eq, not_true_eq_false,
        if_false, ite_false] at h3 ⊢
      by_cases hdup : (SMap.find? s.stream_options_received mo.stream_name).getD false = true
      · have hmem : SMap.find? s.stream_options_received mo.stream_name = some true := by
          cases hf : SMap.find? s.stream_options_received mo.stream_name with
          | none => rw [hf] at hdup; simp at hdup
          | some b => rw [hf] at hdup; simp at hdup; rw [hdup]
        rw [if_pos hdup, SMap.ensure_of_mem hmem]
        constructor
        · intro hcontra
          simp at hcontra
        · intro hcontra
          have h4 : allInitDataReceived s = true := hcontra
          rw [h2] at h4
          simp at h4
      · rw [if_neg hdup] at h3 ⊢
        refine intrinsicsTail_ready_iff _ _ ?_ h3
        simp only [initStreamIntrinsicsIfPossible_state]
        cases mo.options <;> cases mo.filters <;>
          simp [initStreamOptionsIfPossible_state,
            initStreamFiltersIfPossible_state, h1]

theorem ready_iff_init_counts_witness :
    ((handleNotif dupSession (NotifMsg.streamHeader (mkHeader "Color"))).1.state =
        state_t.READY ↔
      allInitDataReceived
        (handleNotif dupSession (NotifMsg.streamHeader (mkHeader "Color"))).1 = true) :=
  ready_iff_init_counts dupSession (NotifMsg.streamHeader (mkHeader "Color"))
    (by decide) (by decide) (by decide)

theorem checkReady_opts_incomplete (X : SessionState)
    (h : SMap.size X.stream_options_received ≠ X.n_streams_expected) :
    checkReady X = X := by
  have hb : (SMap.size X.stream_options_received == X.n_streams_expected) = false := by
    simpa using h
  simp [checkReady, allInitDataReceived, hb]

theorem checkReady_hdr_incomplete (X : SessionState)
    (h : SMap.size X.stream_header_received ≠ X.n_streams_expected) :
    checkReady X = X := by
  have hb : (SMap.size X.stream_header_received == X.n_streams_expected) = false := by
    simpa using h
  simp [checkReady, allInitDataReceived, hb]

set_option maxHeartbeats 4000000 in
/-- C2: for a stream none of whose fragments have arrived yet, delivering
    its well-formed stream-header and its stream-options message (carrying
    options, embedded filters and intrinsics) in either order during
    INITIALIZING produces identical session states — in particular an
    identical fully-initialized Stream object (type, profiles, default
    profile index, metadata flag, options, embedded filters, intrinsics). -/
theorem stream_init_order_independent
    (s : SessionState) (mh : StreamHeaderMsg) (mo : StreamOptionsMsg)
    (profs : List Nat)
    (h1 : s.state = state_t.INITIALIZING)
    (hn : mo.stream_name = mh.name)
    (h2 : SMap.find? s.streams mh.name = none)
    (h3 : SMap.find? s.stream_header_received mh.name = none)
    (h4 : SMap.find? s.stream_options_received mh.name = none)
    (h5 : SMap.find? s.stream_options_for_init mh.name = none)
    (h6 : SMap.find? s.stream_filters_for_init mh.name = none)
    (h7 : SMap.find? s.stream_intrinsics_for_init mh.name = none)
    (h8 : SMap.size s.stream_header_received < s.n_streams_expected)
    (h9 : SMap.size s.stream_options_received < s.n_streams_expected)
    (hty : isStreamType mh.type_s = true)
    (hpp : parseProfiles mh.profiles = some profs)
    (hdpi : mh.default_profile_index < profs.length)
    (hmot : ∀ j, isVideoType mh.type_s = false → mo.intrinsics = some j →
      j.accel.isSome = true ∧ j.gyro.isSome = true) :
    stepNotif (stepNotif s (NotifMsg.streamHeader mh)) (NotifMsg.streamOptions mo) =
      stepNotif (stepNotif s (NotifMsg.streamOptions mo)) (NotifMsg.streamHeader mh) := by
  have hne8 : SMap.size s.stream_header_received ≠ s.n_streams_expected :=
    Nat.ne_of_lt h8
  have hne9 : SMap.size s.stream_options_received ≠ s.n_streams_expected :=
    Nat.ne_of_lt h9
  have hges : ¬ (SMap.size s.stream_header_received ≥ s.n_streams_expected) :=
    not_le.mpr h8
  obtain ⟨mty, mnm, msen, mpr, mdpi, mmeta⟩ := mh
  obtain ⟨monm, moopt, mofil, moint⟩ := mo
  dsimp only at hn h2 h3 h4 h5 h6 h7 hty hpp hdpi hmot ⊢
  subst hn
  cases mmeta <;>
    rcases moopt with _ | lopt <;>
    rcases mofil with _ | lfil <;>
    rcases moint with _ | j <;>
  first
  | (simp [stepNotif, handleNotif, onStreamHeader, onStreamOptions, intrinsicsTail,
      initStreamOptionsIfPossible, initStreamFiltersIfPossible,
      initStreamIntrinsicsIfPossible, SMap.ensure, SMap.find?_setVal_self,
      SMap.setVal_setVal, SMap.erase_setVal_of_not_mem,
      checkReady_opts_incomplete, checkReady_hdr_incomplete,
      h1, h2, h3, h4, h5, h6, h7, hges, hne8, hne9, hty, hpp, hdpi]
     done)
  | (rcases hv : isVideoType mty with _ | _
     · obtain ⟨⟨a, ha⟩, ⟨g, hg⟩⟩ :
         (∃ x, j.accel = some x) ∧ ∃ x, j.gyro = some x := by
         obtain ⟨ha', hg'⟩ := hmot j hv rfl
         exact ⟨Option.isSome_iff_exists.mp ha', Option.isSome_iff_exists.mp hg'⟩
       simp [stepNotif, handleNotif, onStreamHeader, onStreamOptions, intrinsicsTail,
         initStreamOptionsIfPossible, initStreamFiltersIfPossible,
         initStreamIntrinsicsIfPossible, SMap.ensure, SMap.find?_setVal_self,
         SMap.setVal_setVal, SMap.erase_setVal_of_not_mem,
         checkReady_opts_incomplete, checkReady_hdr_incomplete,
         h1, h2, h3, h4, h5, h6, h7, hges, hne8, hne9, hty, hpp, hdpi,
         hv, ha, hg]
     · simp [stepNotif, handleNotif, onStreamHeader, onStreamOptions, intrinsicsTail,
         initStreamOptionsIfPossible, initStreamFiltersIfPossible,
         initStreamIntrinsicsIfPossible, SMap.ensure, SMap.find?_setVal_self,
         SMap.setVal_setVal, SMap.erase_setVal_of_not_mem,
         checkReady_opts_incomplete, checkReady_hdr_incomplete,
         h1, h2, h3, h4, h5, h6, h7, hges, hne8, hne9, hty, hpp, hdpi,
         hv])

theorem stream_init_order_independent_witness :
    stepNotif (stepNotif dupSession (NotifMsg.streamHeader witnessHeader))
        (NotifMsg.streamOptions witnessOptions) =
      stepNotif (stepNotif dupSession (NotifMsg.streamOptions witnessOptions))
        (NotifMsg.streamHeader witnessHeader) :=
  stream_init_order_independent dupSession witnessHeader witnessOptions [5, 6]
    (by decide) rfl (by decide) (by decide) (by decide) (by decide) (by decide)
    (by decide) (by decide) (by decide) (by decide) rfl (by decide)
    (fun _ hf _ => absurd hf (by decide))

end RealddsSpec
